import Mathlib

/-!
Verification of the mcp-server-canyon repository: a Flask/FastMCP HTTP facade
that forwards `search`/`fetch` tool calls to an external assistant API, plus a
mock OAuth 2.0 authorization-code flow.

The external API (OpenAI client) is modelled by an `Env` record holding, for
each API call the handlers perform, either the value the call returns or the
exception message it raises (`Except String _`).  Python strings are modelled
as Lean `String`s, with Python-specific primitives (`s[:n]`, `s.startswith`,
`s.split(' ')`) given explicit executable definitions over the character list.

`src/main.py` (`search`/`fetch`) and `src/main_flask.py`
(`search_documents`/`fetch_document`) contain the same search/fetch logic line
for line; the single embedding below under `MainFlask` covers both.  The mock
handlers and the OAuth endpoints of `src/main_simple.py` are embedded under
`MainSimple`.
-/

namespace McpCanyon

/-- Python `s[:n]`: the first `n` characters of `s`. -/
def pyTake (s : String) (n : Nat) : String := ⟨s.data.take n⟩

/-- Python `s.startswith(pre)` over character lists. -/
def pyStartsWith (s pre : String) : Bool := pre.data.isPrefixOf s.data

def splitSpAux : List Char → List Char → List (List Char)
  | [], acc => [acc.reverse]
  | c :: cs, acc => if c = ' ' then acc.reverse :: splitSpAux cs [] else splitSpAux cs (c :: acc)

/-- Python `s.split(' ')`: split on every single space, keeping empty chunks. -/
def pySplitSpace (s : String) : List String := (splitSpAux s.data []).map String.mk

/-- Python f-string interpolation of an optional value: `None` prints as "None". -/
def optStr : Option String → String
  | none => "None"
  | some s => s

/-- Truncation applied to the assistant response in `search`
(`text_content[:500] + "..." if len(text_content) > 500 else text_content`). -/
def truncResponse (s : String) : String :=
  if s.length > 500 then pyTake s 500 ++ "..." else s

/-- Values appearing in a document `metadata` dict (strings and integers). -/
inductive MetaVal where
  | s (v : String)
  | n (v : Int)
deriving DecidableEq

/-- A search result dict: `{id, title, text, url}`. -/
structure SearchResult where
  id : String
  title : String
  text : String
  url : String
deriving DecidableEq

/-- A document dict: `{id, title, text, url, metadata}`. -/
structure Document where
  id : String
  title : String
  text : String
  url : String
  metadata : List (String × MetaVal)
deriving DecidableEq

/-- The key list of the JSON dict a `Document` denotes.  Every dict literal
returned by `fetch_document` in the source is built with exactly these five
keys, which is why the embedding can use a fixed record type. -/
def Document.dictKeys (_ : Document) : List String :=
  ["id", "title", "text", "url", "metadata"]

/-- A thread object returned by `client.beta.threads.create()`. -/
structure ThreadObj where
  id : String
deriving DecidableEq

/-- An annotation on a message text: either one carrying a `file_citation`
attribute (with its `file_id`) or any other annotation shape. -/
inductive Anno where
  | fileCitation (file_id : String)
  | other
deriving DecidableEq

/-- The `text` attribute of a message content part: `value` plus the
`annotations` list when present (`hasattr(content.text, 'annotations')`). -/
structure TextObj where
  value : String
  annotations : Option (List Anno)
deriving DecidableEq

/-- A message content part: one with a `text` attribute, or any other shape. -/
inductive ContentPart where
  | text (t : TextObj)
  | other
deriving DecidableEq

/-- A message in a thread. -/
structure Message where
  content : List ContentPart
deriving DecidableEq

/-- The object returned by `client.beta.threads.messages.list`. -/
structure MessagesList where
  data : List Message
deriving DecidableEq

/-- The object returned by `client.files.retrieve`. -/
structure FileInfo where
  filename : String
  purpose : String
  bytes : Int
  created_at : Int
deriving DecidableEq

/-- The object returned by `client.files.content`; `text` is present only when
`hasattr(file_content, 'text')`. -/
structure FileContent where
  text : Option String
deriving DecidableEq

/-- One request's view of the external OpenAI API: for each call the handlers
perform, either its result or the message of the exception it raises. -/
structure Env where
  threadsCreate : Except String ThreadObj
  messagesCreate : Except String Unit
  runsCreateAndPoll : Except String Unit
  messagesList : Except String MessagesList
  threadsDelete : Except String Unit
  filesRetrieve : Except String FileInfo
  filesContent : Except String FileContent

/-- External API calls, recorded in the order a handler attempts them. -/
inductive ApiEvent where
  | threadsCreate
  | messagesCreate
  | runsCreateAndPoll
  | messagesList
  | threadsDelete
  | filesRetrieve
  | filesContent
deriving DecidableEq

/-- The first exception raised among the four thread-round-trip calls, if any
(the calls inside the outer `try` of `search`, in program order). -/
def threadError (env : Env) : Option String :=
  match env.threadsCreate with
  | .error e => some e
  | .ok _ =>
    match env.messagesCreate with
    | .error e => some e
    | .ok _ =>
      match env.runsCreateAndPoll with
      | .error e => some e
      | .ok _ =>
        match env.messagesList with
        | .error e => some e
        | .ok _ => none

/-- The first exception raised among the two file calls of the fetch file
branch, if any. -/
def fileError (env : Env) : Option String :=
  match env.filesRetrieve with
  | .error e => some e
  | .ok _ =>
    match env.filesContent with
    | .error e => some e
    | .ok _ => none

namespace MainFlask

/-- The single-element error result `search_documents` returns from its
`except` branch (main_flask.py lines 113-120; identical in main.py). -/
def searchErrorResult (e : String) : List SearchResult :=
  [{ id := "error", title := "Search Error",
     text := "An error occurred while searching: " ++ e, url := "#error" }]

/-- The file ids collected from the annotations of a response text, keeping
those with a `file_citation` attribute (main_flask.py lines 81-85). -/
def citationsOf (t : TextObj) : List String :=
  match t.annotations with
  | none => []
  | some anns => anns.filterMap fun a =>
      match a with
      | .fileCitation fid => some fid
      | .other => none

/-- The result list `search_documents` builds from the listed messages
(main_flask.py lines 71-102): empty unless the first message's first content
part has a `text` attribute; otherwise the truncated primary result followed
by one pseudo-result per file citation. -/
def searchResultsOf (query : String) (thread : ThreadObj) (messages : MessagesList) :
    List SearchResult :=
  match messages.data with
  | [] => []
  | latest :: _ =>
    match latest.content with
    | [] => []
    | c :: _ =>
      match c with
      | .other => []
      | .text t =>
        { id := "search_result_" ++ thread.id,
          title := "Search result for: " ++ query,
          text := truncResponse t.value,
          url := "#search_" ++ thread.id }
        :: (citationsOf t).enum.map fun p =>
          { id := p.2,
            title := "Document " ++ toString (p.1 + 1),
            text := "Referenced document in search for: " ++ query,
            url := "#file_" ++ p.2 }

/-- Embedding of `search_documents` (main_flask.py lines 34-120; `search` in
main.py is line-for-line the same).  The nested matches on `env` mirror
exception propagation out of the `try` body into the `except` handler.  The
final `client.beta.threads.delete` call sits in its own inner `try` whose
`except` only logs, so its outcome never affects the returned value and
`env.threadsDelete` is not read. -/
def search_documents (query : String) (env : Env) : List SearchResult :=
  match env.threadsCreate with
  | .error e => searchErrorResult e
  | .ok thread =>
    match env.messagesCreate with
    | .error e => searchErrorResult e
    | .ok _ =>
      match env.runsCreateAndPoll with
      | .error e => searchErrorResult e
      | .ok _ =>
        match env.messagesList with
        | .error e => searchErrorResult e
        | .ok messages => searchResultsOf query thread messages

/-- The document returned when the fetch file branch raises (main_flask.py
lines 153-161). -/
def fileNotFoundDoc (docId e : String) : Document :=
  { id := docId, title := "File Not Found",
    text := "Could not retrieve file with ID " ++ docId ++ ": " ++ e,
    url := "#file_" ++ docId, metadata := [("error", .s e)] }

/-- The document returned on the fetch file branch when both file calls
succeed (main_flask.py lines 141-152). -/
def fileDoc (docId : String) (fi : FileInfo) (fc : FileContent) : Document :=
  { id := docId, title := fi.filename,
    text := match fc.text with
            | some t => t
            | none => "Binary file content not available",
    url := "#file_" ++ docId,
    metadata := [("filename", .s fi.filename), ("purpose", .s fi.purpose),
                 ("bytes", .n fi.bytes), ("created_at", .n fi.created_at)] }

/-- The document returned from the outer `except` of `fetch_document`
(main_flask.py lines 209-217). -/
def fetchErrorDoc (docId e : String) : Document :=
  { id := docId, title := "Fetch Error",
    text := "An error occurred while fetching document " ++ docId ++ ": " ++ e,
    url := "#error_" ++ docId, metadata := [("error", .s e)] }

/-- The default document the fetch thread branch starts from
(main_flask.py lines 184-190). -/
def defaultFetchDoc (docId : String) : Document :=
  { id := docId, title := "Document " ++ docId, text := "No content found",
    url := "#doc_" ++ docId, metadata := [] }

/-- The document the fetch thread branch builds from the listed messages
(main_flask.py lines 184-198). -/
def fetchResultOf (docId : String) (messages : MessagesList) : Document :=
  match messages.data with
  | [] => defaultFetchDoc docId
  | latest :: _ =>
    match latest.content with
    | [] => defaultFetchDoc docId
    | c :: _ =>
      match c with
      | .other => defaultFetchDoc docId
      | .text t =>
        { defaultFetchDoc docId with
            text := t.value, title := "Full content for " ++ docId }

/-- Embedding of `fetch_document` (main_flask.py lines 122-217; `fetch` in
main.py is the same), paired with the trace of external API calls attempted,
in order.  The file branch sits in an inner `try`, so its exceptions produce
the File Not Found document; exceptions of the thread branch reach the outer
`except` and produce the Fetch Error document.  The trailing
`client.beta.threads.delete` is attempted whenever the thread branch reaches
it; its own failure is only logged. -/
def fetch_document (docId : String) (env : Env) : Document × List ApiEvent :=
  if pyStartsWith docId "file-" then
    match env.filesRetrieve with
    | .error e => (fileNotFoundDoc docId e, [.filesRetrieve])
    | .ok fi =>
      match env.filesContent with
      | .error e => (fileNotFoundDoc docId e, [.filesRetrieve, .filesContent])
      | .ok fc => (fileDoc docId fi fc, [.filesRetrieve, .filesContent])
  else
    match env.threadsCreate with
    | .error e => (fetchErrorDoc docId e, [.threadsCreate])
    | .ok _ =>
      match env.messagesCreate with
      | .error e => (fetchErrorDoc docId e, [.threadsCreate, .messagesCreate])
      | .ok _ =>
        match env.runsCreateAndPoll with
        | .error e =>
          (fetchErrorDoc docId e, [.threadsCreate, .messagesCreate, .runsCreateAndPoll])
        | .ok _ =>
          match env.messagesList with
          | .error e =>
            (fetchErrorDoc docId e,
             [.threadsCreate, .messagesCreate, .runsCreateAndPoll, .messagesList])
          | .ok messages =>
            (fetchResultOf docId messages,
             [.threadsCreate, .messagesCreate, .runsCreateAndPoll, .messagesList,
              .threadsDelete])

end MainFlask

/-- The `arguments` dict of a `tools/call` request as the handlers read it:
`arguments.get('query', '')` and `arguments.get('id', '')`. -/
structure ToolArgs where
  query : String
  id : String
deriving DecidableEq

/-- A POST /sse/ request body as the handlers consume it.  `malformed e`
stands for a body on which `request.get_json()` or the `'method' in data`
test raises (unparseable JSON, wrong content type, non-container JSON value),
with `e` the exception text; `noMethod` is a parsed body without a usable
`method` entry; `withMethod` carries the method string, the `params.name`
entry when present, the tool arguments, and the request `id`. -/
inductive ReqBody where
  | malformed (e : String)
  | noMethod
  | withMethod (method : String) (name : Option String) (args : ToolArgs) (rid : Option Nat)
deriving DecidableEq

/-- The JSON-RPC `result` payloads main_simple.py's handler produces. -/
inductive RpcPayload where
  | initResult
  | toolsListResult
  | searchContent (rs : List SearchResult)
  | fetchContent (d : Document)
  | promptsListResult
  | resourcesListResult
deriving DecidableEq

/-- Response bodies of the two POST /sse/ handlers.  `rpcResult`/`rpcError`
are main_simple.py's JSON-RPC envelopes (`rid = none` models an absent or
null `id`); `contentSearch`/`contentFetch`/`flaskToolsList`/`plainError` are
main_flask.py's envelope-free bodies. -/
inductive RespBody where
  | rpcResult (rid : Option Nat) (r : RpcPayload)
  | rpcError (rid : Option Nat) (code : Int) (msg : String)
  | contentSearch (rs : List SearchResult)
  | contentFetch (d : Document)
  | flaskToolsList
  | plainError (msg : String)
deriving DecidableEq

/-- The JSON-RPC error code a response body carries, if any. -/
def RespBody.errorCode : RespBody → Option Int
  | .rpcError _ c _ => some c
  | _ => none

namespace MainSimple

/-- Embedding of the mock `search_documents` (main_simple.py lines 24-48). -/
def search_documents (query : String) : List SearchResult :=
  [{ id := "doc_1",
     title := "Search result for: " ++ query,
     text := "This is a mock search result for the query \x27" ++ query ++
       "\x27. Once you configure your OpenAI vector store, this will return real search results from your documents.",
     url := "#doc_1" },
   { id := "doc_2",
     title := "Sample Document",
     text := "This is sample content that demonstrates how the MCP server returns search results. Upload documents to your OpenAI vector store to see real content here.",
     url := "#doc_2" }]

/-- Embedding of the mock `fetch_document` (main_simple.py lines 50-71). -/
def fetch_document (docId : String) : Document :=
  { id := docId,
    title := "Document " ++ docId,
    text := "This is the full content for document " ++ docId ++
      ". Once you configure your OpenAI vector store and upload documents, this will return the actual document content.",
    url := "#doc_" ++ docId,
    metadata := [("type", .s "mock_document"), ("created", .s "2024-01-01"),
                 ("size", .n (("Document " ++ docId).length * 50))] }

/-- The bearer-token gate at the top of main_simple.py's `mcp_sse`
(lines 89-104): a request is rejected only when an Authorization header is
present, starts with "Bearer ", and its second space-separated chunk does not
start with "mcp_access_token". -/
def authFailed (h : Option String) : Bool :=
  match h with
  | none => false
  | some s =>
    pyStartsWith s "Bearer " && !(pyStartsWith ((pySplitSpace s).getD 1 "") "mcp_access_token")

/-- A POST /sse/ request to main_simple.py: Authorization header and body. -/
structure SimpleReq where
  authHeader : Option String
  body : ReqBody
deriving DecidableEq

/-- Embedding of main_simple.py's `mcp_sse` handler (lines 86-267), returning
the HTTP status and response body.  A `malformed` body reaches the trailing
`except` handler (lines 259-267), which answers code -32603 with status 500. -/
def mcpSse (req : SimpleReq) : Nat × RespBody :=
  if authFailed req.authHeader then
    (401, .rpcError none (-32001) "Invalid access token")
  else
    match req.body with
    | .malformed e => (500, .rpcError none (-32603) ("Internal error: " ++ e))
    | .noMethod => (400, .rpcError none (-32600) "Invalid Request")
    | .withMethod m nm args rid =>
      if m = "initialize" then
        (200, .rpcResult rid .initResult)
      else if m = "tools/list" then
        (200, .rpcResult rid .toolsListResult)
      else if m = "tools/call" then
        if nm = some "search" then
          (200, .rpcResult rid (.searchContent (search_documents args.query)))
        else if nm = some "fetch" then
          (200, .rpcResult rid (.fetchContent (fetch_document args.id)))
        else
          (400, .rpcError rid (-32602) ("Unknown tool: " ++ optStr nm))
      else if m = "prompts/list" then
        (200, .rpcResult rid .promptsListResult)
      else if m = "resources/list" then
        (200, .rpcResult rid .resourcesListResult)
      else
        (400, .rpcError rid (-32601) ("Method not found: " ++ m))

end MainSimple

namespace MainFlask

/-- Embedding of main_flask.py's `mcp_sse` handler (lines 230-307): no auth
gate and no JSON-RPC envelopes.  `tools/call` with a name other than
`search`/`fetch`, an unrecognized method, and a body without `method` all
fall through to `{"error": "Invalid request"}` with status 400; a raising
body reaches the `except` handler, `{"error": str(e)}` with status 500. -/
def flaskMcpSse (env : Env) (b : ReqBody) : Nat × RespBody :=
  match b with
  | .malformed e => (500, .plainError e)
  | .noMethod => (400, .plainError "Invalid request")
  | .withMethod m nm args _ =>
    if m = "tools/call" then
      if nm = some "search" then
        (200, .contentSearch (search_documents args.query env))
      else if nm = some "fetch" then
        (200, .contentFetch (fetch_document args.id env).1)
      else
        (400, .plainError "Invalid request")
    else if m = "tools/list" then
      (200, .flaskToolsList)
    else
      (400, .plainError "Invalid request")

end MainFlask

namespace MainSimple

/-- The static client id of the mock OAuth subsystem (main_simple.py line 329). -/
def CLIENT_ID : String := "mcp-server-canyon"

/-- The static client secret of the mock OAuth subsystem (main_simple.py line 330). -/
def CLIENT_SECRET : String := "mcp-server-canyon-secret"

/-- GET /oauth/authorize query arguments as the handler reads them:
`request.args.get` yields `none` for an absent parameter, while `scope` and
`state` default to the empty string. -/
structure AuthArgs where
  client_id : Option String
  redirect_uri : Option String
  response_type : Option String
  scope : String
  state : String
deriving DecidableEq

/-- An /oauth/authorize response: an error JSON body or a redirect Location. -/
inductive AuthResp where
  | errorBody (msg : String)
  | redirectTo (location : String)
deriving DecidableEq

/-- Embedding of `oauth_authorize` (main_simple.py lines 370-397), threading
the single `app.config['temp_auth_code']` slot as explicit state (`none` =
no stored code).  On a client_id/response_type mismatch the slot is not
written; otherwise the hard-coded code is stored and the handler redirects to
`redirect_uri` with the code (and non-empty `state`) appended; an absent
`redirect_uri` is interpolated by Python as the string "None". -/
def oauth_authorize (a : AuthArgs) (st : Option String) :
    (Nat × AuthResp) × Option String :=
  if a.client_id ≠ some CLIENT_ID ∨ a.response_type ≠ some "code" then
    ((400, .errorBody "Invalid client_id or response_type"), st)
  else
    let mock_auth_code := "mcp_auth_code_canyon_123456"
    let redirectParams :=
      "code=" ++ mock_auth_code ++
      (if a.state ≠ "" then "&state=" ++ a.state else "")
    ((302, .redirectTo (optStr a.redirect_uri ++ "?" ++ redirectParams)),
     some mock_auth_code)

/-- POST /oauth/token form fields as the handler reads them. -/
structure TokenForm where
  grant_type : Option String
  code : Option String
  redirect_uri : Option String
  client_id : Option String
  client_secret : Option String
deriving DecidableEq

/-- An /oauth/token response body. -/
inductive TokenRes where
  | invalidGrant
  | payload (access_token : String) (token_type : String) (expires_in : Nat)
      (refresh_token : String) (scope : String)
deriving DecidableEq

/-- Embedding of `oauth_token` (main_simple.py lines 399-432) over the same
explicit authorization-code slot.  The slot is popped exactly on the success
path; any mismatch of grant_type, code, client_id or client_secret answers
`invalid_grant` with status 400 and leaves the slot as it was. -/
def oauth_token (f : TokenForm) (st : Option String) :
    (Nat × TokenRes) × Option String :=
  if f.grant_type ≠ some "authorization_code" ∨ f.code ≠ st ∨
     f.client_id ≠ some CLIENT_ID ∨ f.client_secret ≠ some CLIENT_SECRET then
    ((400, .invalidGrant), st)
  else
    ((200, .payload "mcp_access_token_canyon_abcdef123456" "Bearer" 3600
        "mcp_refresh_token_canyon_ghijkl789012" "read write"), none)

/-- Exact validation condition of the token endpoint against a stored code
`c`: the negation of the mismatch test at main_simple.py lines 412-415. -/
def tokenMatch (f : TokenForm) (c : String) : Prop :=
  f.grant_type = some "authorization_code" ∧ f.code = some c ∧
  f.client_id = some CLIENT_ID ∧ f.client_secret = some CLIENT_SECRET

instance (f : TokenForm) (c : String) : Decidable (tokenMatch f c) := by
  unfold tokenMatch; infer_instance

end MainSimple

/-- A one-message assistant reply whose first content part has text. -/
def msgHello : Message := ⟨[.text ⟨"hello", none⟩]⟩

/-- A fully succeeding external API. -/
def envAllOk : Env :=
  { threadsCreate := .ok ⟨"t1"⟩, messagesCreate := .ok (), runsCreateAndPoll := .ok (),
    messagesList := .ok ⟨[msgHello]⟩, threadsDelete := .ok (),
    filesRetrieve := .ok ⟨"notes.txt", "assistants", 12, 1700000000⟩,
    filesContent := .ok ⟨some "file body"⟩ }

/-- A succeeding external API whose message listing comes back empty. -/
def envNoMsg : Env := { envAllOk with messagesList := .ok ⟨[]⟩ }

/-- An external API whose thread creation raises. -/
def envThreadErr : Env := { envAllOk with threadsCreate := .error "boom" }

/-- An external API whose file retrieval raises. -/
def envFileErr : Env := { envAllOk with filesRetrieve := .error "nofile" }

/-- An external API where only the thread deletion raises. -/
def envDelErr : Env := { envAllOk with threadsDelete := .error "delete failed" }

/-- A mismatching token form: right grant type and client, wrong code. -/
def tfBad : MainSimple.TokenForm :=
  ⟨some "authorization_code", some "wrong", none,
   some MainSimple.CLIENT_ID, some MainSimple.CLIENT_SECRET⟩

/-- Authorize arguments that pass validation. -/
def aGood : MainSimple.AuthArgs :=
  ⟨some MainSimple.CLIENT_ID, some "https://chat.example/cb", some "code", "", "xyz"⟩

/-- A token form matching the hard-coded authorization code and credentials. -/
def fGood : MainSimple.TokenForm :=
  ⟨some "authorization_code", some "mcp_auth_code_canyon_123456",
   some "https://chat.example/cb", some MainSimple.CLIENT_ID, some MainSimple.CLIENT_SECRET⟩

/-- Length of appending to a string built from a character list. -/
theorem length_mk_append (l : List Char) (t : String) :
    ((⟨l⟩ : String) ++ t).length = l.length + t.length := by
  cases t with
  | mk m =>
    show (String.mk (l ++ m)).length = l.length + m.length
    simp [String.length]

/-- The truncation used for the primary search result never exceeds 503
characters: at most 500 characters of response plus the three-dot ellipsis. -/
theorem truncResponse_length_le (s : String) : (truncResponse s).length ≤ 503 := by
  cases s with
  | mk l =>
    unfold truncResponse pyTake
    split
    · rw [length_mk_append]
      have h1 : (List.take 500 (String.mk l).data).length ≤ 500 := by
        simp [List.length_take]
      have h2 : ("..." : String).length = 3 := rfl
      omega
    · next h =>
      have : (String.mk l).length ≤ 500 := by omega
      omega

/-- The document built by the fetch thread branch always carries the input
identifier, whatever the listed messages look like. -/
theorem fetchResultOf_id (docId : String) (ms : MessagesList) :
    (MainFlask.fetchResultOf docId ms).id = docId := by
  obtain ⟨data⟩ := ms
  unfold MainFlask.fetchResultOf
  cases data with
  | nil => rfl
  | cons latest rest =>
    obtain ⟨content⟩ := latest
    cases content with
    | nil => rfl
    | cons c cs => cases c <;> rfl

/-- C1 counterexample: when every external call succeeds but the assistant's
message listing is empty, `search_documents` returns the empty list, so the
claim that search returns a non-empty sequence for every query is false. -/
theorem search_nonempty_refuted : MainFlask.search_documents "query" envNoMsg = [] := rfl

/-- C1 (amended): whenever the four external calls of the search round trip
succeed and the first listed message's first content part carries text, the
result is non-empty and its first element's `text` has length at most 503
(at most 500 characters of response plus the ellipsis). -/
theorem search_first_result_length_bounded (q : String) (env : Env) (th : ThreadObj)
    (ml : MessagesList) (m : Message) (ms : List Message) (t : TextObj)
    (cs : List ContentPart)
    (h1 : env.threadsCreate = .ok th) (h2 : env.messagesCreate = .ok ())
    (h3 : env.runsCreateAndPoll = .ok ()) (h4 : env.messagesList = .ok ml)
    (h5 : ml.data = m :: ms) (h6 : m.content = .text t :: cs) :
    ∃ r rs, MainFlask.search_documents q env = r :: rs ∧ r.text.length ≤ 503 := by
  unfold MainFlask.search_documents MainFlask.searchResultsOf
  rw [h1, h2, h3, h4]
  simp only [h5, h6]
  exact ⟨_, _, rfl, truncResponse_length_le t.value⟩

/-- C1 witness: a concrete succeeding environment with a short reply. -/
theorem search_first_result_length_bounded_check :
    ∃ r rs, MainFlask.search_documents "q" envAllOk = r :: rs ∧ r.text.length ≤ 503 :=
  search_first_result_length_bounded "q" envAllOk ⟨"t1"⟩ ⟨[msgHello]⟩ msgHello []
    ⟨"hello", none⟩ [] rfl rfl rfl rfl rfl rfl

/-- C2 counterexample: `client.beta.threads.delete` is an external-API call
inside `search_documents`, yet when it alone raises (inner `try` at
main_flask.py lines 105-108) the function still returns the normal result,
whose id is the thread-derived one and not "error" — so the claim that any
raising external call yields the single error-placeholder result is false. -/
theorem search_delete_error_cex :
    (MainFlask.search_documents "q" envDelErr).map SearchResult.id = ["search_result_t1"] :=
  rfl

/-- C2 (amended): every exception of the four thread-round-trip calls of
search is caught and yields the single error placeholder with id "error"; in
fetch, thread-branch exceptions yield the Fetch Error document and
file-branch exceptions the File Not Found document, so neither operation
raises; an exception of the best-effort thread delete is only logged and
leaves the search result unchanged. -/
theorem search_fetch_catch_errors (q docId : String) (env : Env) (e : String) :
    (threadError env = some e →
      MainFlask.search_documents q env = MainFlask.searchErrorResult e) ∧
    (pyStartsWith docId "file-" = false → threadError env = some e →
      (MainFlask.fetch_document docId env).1 = MainFlask.fetchErrorDoc docId e) ∧
    (pyStartsWith docId "file-" = true → fileError env = some e →
      (MainFlask.fetch_document docId env).1 = MainFlask.fileNotFoundDoc docId e) ∧
    MainFlask.search_documents q env
      = MainFlask.search_documents q { env with threadsDelete := .ok () } := by
  obtain ⟨tc, mc, rc, ml, td, fr, fc⟩ := env
  refine ⟨?_, ?_, ?_, rfl⟩
  · intro h
    cases tc <;> cases mc <;> cases rc <;> cases ml <;>
      simp_all [threadError, MainFlask.search_documents]
  · intro hf h
    cases tc <;> cases mc <;> cases rc <;> cases ml <;>
      simp_all [threadError, MainFlask.fetch_document]
  · intro hf h
    cases fr <;> cases fc <;>
      simp_all [fileError, MainFlask.fetch_document]

/-- C2 witness: concrete raising environments for the search error
placeholder, the Fetch Error document and the File Not Found document. -/
theorem search_fetch_catch_errors_check :
    MainFlask.search_documents "q" envThreadErr = MainFlask.searchErrorResult "boom" ∧
    (MainFlask.fetch_document "doc9" envThreadErr).1 = MainFlask.fetchErrorDoc "doc9" "boom" ∧
    (MainFlask.fetch_document "file-9" envFileErr).1
      = MainFlask.fileNotFoundDoc "file-9" "nofile" :=
  ⟨(search_fetch_catch_errors "q" "doc9" envThreadErr "boom").1 rfl,
   (search_fetch_catch_errors "q" "doc9" envThreadErr "boom").2.1 (by decide) rfl,
   (search_fetch_catch_errors "q" "file-9" envFileErr "nofile").2.2.1 (by decide) rfl⟩

/-- C3: fetch of an identifier starting with "file-" attempts only the two
direct file calls (also when they fail) and never any thread call; fetch of
any other identifier always attempts thread creation, and when no thread
call raises it performs the whole round trip: create thread, post message,
run, read messages, delete thread, in order. -/
theorem fetch_file_branch_dichotomy (docId : String) (env : Env) :
    (pyStartsWith docId "file-" = true →
      ∀ ev ∈ (MainFlask.fetch_document docId env).2,
        ev = ApiEvent.filesRetrieve ∨ ev = ApiEvent.filesContent) ∧
    (pyStartsWith docId "file-" = false →
      ApiEvent.threadsCreate ∈ (MainFlask.fetch_document docId env).2) ∧
    (pyStartsWith docId "file-" = false → threadError env = none →
      (MainFlask.fetch_document docId env).2
        = [ApiEvent.threadsCreate, ApiEvent.messagesCreate, ApiEvent.runsCreateAndPoll,
           ApiEvent.messagesList, ApiEvent.threadsDelete]) := by
  obtain ⟨tc, mc, rc, ml, td, fr, fc⟩ := env
  refine ⟨?_, ?_, ?_⟩
  · intro h ev hev
    cases fr <;> cases fc <;> simp_all [MainFlask.fetch_document]
  · intro h
    cases tc <;> cases mc <;> cases rc <;> cases ml <;>
      simp_all [MainFlask.fetch_document]
  · intro h hte
    cases tc <;> cases mc <;> cases rc <;> cases ml <;>
      simp_all [threadError, MainFlask.fetch_document]

/-- C3 witness: the file branch on a failing file lookup and the full thread
round trip on a succeeding environment. -/
theorem fetch_file_branch_dichotomy_check :
    (ApiEvent.filesRetrieve = ApiEvent.filesRetrieve ∨
      ApiEvent.filesRetrieve = ApiEvent.filesContent) ∧
    ApiEvent.threadsCreate ∈ (MainFlask.fetch_document "doc9" envAllOk).2 ∧
    (MainFlask.fetch_document "doc9" envAllOk).2
      = [ApiEvent.threadsCreate, ApiEvent.messagesCreate, ApiEvent.runsCreateAndPoll,
         ApiEvent.messagesList, ApiEvent.threadsDelete] :=
  ⟨(fetch_file_branch_dichotomy "file-9" envFileErr).1 (by decide)
      ApiEvent.filesRetrieve (by decide),
   (fetch_file_branch_dichotomy "doc9" envAllOk).2.1 (by decide),
   (fetch_file_branch_dichotomy "doc9" envAllOk).2.2 (by decide) rfl⟩

/-- C4 counterexample: main_flask.py's POST /sse/ handler answers a
`tools/call` request with an unknown tool name by `{"error": "Invalid
request"}` with status 400 — a body carrying no JSON-RPC error code at all,
so the claim that the POST /sse/ handler returns a -32602 envelope is false
for that handler. -/
theorem unknown_tool_flask_cex :
    MainFlask.flaskMcpSse envAllOk (.withMethod "tools/call" (some "bogus") ⟨"", ""⟩ none)
      = (400, .plainError "Invalid request") ∧
    (MainFlask.flaskMcpSse envAllOk
        (.withMethod "tools/call" (some "bogus") ⟨"", ""⟩ none)).2.errorCode = none := by
  exact ⟨rfl, rfl⟩

/-- C4 (amended): on a `tools/call` whose name is neither "search" nor
"fetch", main_simple.py's handler returns the JSON-RPC error envelope with
code -32602 and HTTP 400, while main_flask.py's handler returns the plain
`{"error": "Invalid request"}` body with HTTP 400. -/
theorem unknown_tool_dispatch (auth : Option String) (rid : Option Nat) (args : ToolArgs)
    (nm : Option String) (env : Env)
    (hauth : MainSimple.authFailed auth = false)
    (h1 : nm ≠ some "search") (h2 : nm ≠ some "fetch") :
    MainSimple.mcpSse ⟨auth, .withMethod "tools/call" nm args rid⟩
      = (400, .rpcError rid (-32602) ("Unknown tool: " ++ optStr nm)) ∧
    MainFlask.flaskMcpSse env (.withMethod "tools/call" nm args rid)
      = (400, .plainError "Invalid request") := by
  constructor
  · simp [MainSimple.mcpSse, hauth, h1, h2]
  · simp [MainFlask.flaskMcpSse, h1, h2]

/-- C4 witness: the unknown tool name "list" on both handlers. -/
theorem unknown_tool_dispatch_check :
    MainSimple.mcpSse ⟨none, .withMethod "tools/call" (some "list") ⟨"", ""⟩ (some 7)⟩
      = (400, .rpcError (some 7) (-32602) ("Unknown tool: " ++ optStr (some "list"))) ∧
    MainFlask.flaskMcpSse envAllOk (.withMethod "tools/call" (some "list") ⟨"", ""⟩ (some 7))
      = (400, .plainError "Invalid request") :=
  unknown_tool_dispatch none (some 7) ⟨"", ""⟩ (some "list") envAllOk rfl
    (by decide) (by decide)

/-- C5 counterexample: a body on which JSON parsing raises reaches
main_simple.py's `except` handler and is answered with code -32603 and
status 500, not with the claimed -32600. -/
theorem malformed_body_code_cex :
    MainSimple.mcpSse ⟨none, .malformed "Expecting value"⟩
      = (500, .rpcError none (-32603) "Internal error: Expecting value") ∧
    (MainSimple.mcpSse ⟨none, .malformed "Expecting value"⟩).2.errorCode ≠ some (-32600) := by
  exact ⟨rfl, by decide⟩

/-- C5 (amended): in main_simple.py's handler a recognized-free method is
answered with JSON-RPC code -32601 and HTTP 400, a parsed body without a
`method` field with code -32600 and HTTP 400, and a body whose parsing or
method lookup raises with code -32603 and HTTP 500. -/
theorem method_dispatch_errors (auth : Option String) (m : String) (nm : Option String)
    (args : ToolArgs) (rid : Option Nat) (e : String)
    (hauth : MainSimple.authFailed auth = false)
    (h1 : m ≠ "initialize") (h2 : m ≠ "tools/list") (h3 : m ≠ "tools/call")
    (h4 : m ≠ "prompts/list") (h5 : m ≠ "resources/list") :
    MainSimple.mcpSse ⟨auth, .withMethod m nm args rid⟩
      = (400, .rpcError rid (-32601) ("Method not found: " ++ m)) ∧
    MainSimple.mcpSse ⟨auth, .noMethod⟩
      = (400, .rpcError none (-32600) "Invalid Request") ∧
    MainSimple.mcpSse ⟨auth, .malformed e⟩
      = (500, .rpcError none (-32603) ("Internal error: " ++ e)) := by
  refine ⟨?_, ?_, ?_⟩
  · simp [MainSimple.mcpSse, hauth, h1, h2, h3, h4, h5]
  · simp [MainSimple.mcpSse, hauth]
  · simp [MainSimple.mcpSse, hauth]

/-- C5 witness: the unrecognized method "ping", a method-free body and a
raising body. -/
theorem method_dispatch_errors_check :
    MainSimple.mcpSse ⟨none, .withMethod "ping" none ⟨"", ""⟩ none⟩
      = (400, .rpcError none (-32601) ("Method not found: " ++ "ping")) ∧
    MainSimple.mcpSse ⟨none, .noMethod⟩
      = (400, .rpcError none (-32600) "Invalid Request") ∧
    MainSimple.mcpSse ⟨none, .malformed "boom"⟩
      = (500, .rpcError none (-32603) ("Internal error: " ++ "boom")) :=
  method_dispatch_errors none "ping" none ⟨"", ""⟩ none "boom" rfl
    (by decide) (by decide) (by decide) (by decide) (by decide)

/-- C6: starting from a stored authorization code `c`, the token endpoint
clears the slot (CodeIssued to NoCode) exactly when grant_type, code,
client_id and client_secret all match; on any mismatch it answers
`invalid_grant` with HTTP 400 and leaves the slot holding `c`. -/
theorem token_clears_code_iff_match (f : MainSimple.TokenForm) (c : String) :
    ((MainSimple.oauth_token f (some c)).2 = none ↔ MainSimple.tokenMatch f c) ∧
    (¬ MainSimple.tokenMatch f c →
      MainSimple.oauth_token f (some c) = ((400, .invalidGrant), some c)) := by
  by_cases h : MainSimple.tokenMatch f c
  · obtain ⟨h1, h2, h3, h4⟩ := h
    have hc : ¬ (f.grant_type ≠ some "authorization_code" ∨ f.code ≠ some c ∨
        f.client_id ≠ some MainSimple.CLIENT_ID ∨
        f.client_secret ≠ some MainSimple.CLIENT_SECRET) := by
      push_neg
      exact ⟨h1, h2, h3, h4⟩
    constructor
    · simp [MainSimple.oauth_token, hc, MainSimple.tokenMatch, h1, h2, h3, h4]
    · intro hn
      exact absurd ⟨h1, h2, h3, h4⟩ hn
  · have hc : f.grant_type ≠ some "authorization_code" ∨ f.code ≠ some c ∨
        f.client_id ≠ some MainSimple.CLIENT_ID ∨
        f.client_secret ≠ some MainSimple.CLIENT_SECRET := by
      unfold MainSimple.tokenMatch at h
      tauto
    constructor
    · simp [MainSimple.oauth_token, hc, h]
    · intro _
      simp [MainSimple.oauth_token, hc]

/-- C6 witness: a form with the right grant type and client credentials but
the wrong code leaves the stored code in place and is rejected. -/
theorem token_clears_code_iff_match_check :
    MainSimple.oauth_token tfBad (some "zz") = ((400, .invalidGrant), some "zz") :=
  (token_clears_code_iff_match tfBad "zz").2 (by decide)

/-- C7: from any starting state, a successful authorize call followed by a
token call carrying matching credentials and the exact issued code returns
the payload with token_type "Bearer", and replaying the same code against
the now-cleared slot returns `invalid_grant`. -/
theorem authorize_token_round_trip (a : MainSimple.AuthArgs) (st : Option String)
    (f : MainSimple.TokenForm)
    (ha1 : a.client_id = some MainSimple.CLIENT_ID) (ha2 : a.response_type = some "code")
    (hf1 : f.grant_type = some "authorization_code")
    (hf2 : f.code = some "mcp_auth_code_canyon_123456")
    (hf3 : f.client_id = some MainSimple.CLIENT_ID)
    (hf4 : f.client_secret = some MainSimple.CLIENT_SECRET) :
    (MainSimple.oauth_token f (MainSimple.oauth_authorize a st).2).1
      = (200, .payload "mcp_access_token_canyon_abcdef123456" "Bearer" 3600
          "mcp_refresh_token_canyon_ghijkl789012" "read write") ∧
    (MainSimple.oauth_token f
        (MainSimple.oauth_token f (MainSimple.oauth_authorize a st).2).2).1
      = (400, .invalidGrant) := by
  have hst : (MainSimple.oauth_authorize a st).2 = some "mcp_auth_code_canyon_123456" := by
    simp [MainSimple.oauth_authorize, ha1, ha2]
  rw [hst]
  have hok : MainSimple.oauth_token f (some "mcp_auth_code_canyon_123456")
      = ((200, .payload "mcp_access_token_canyon_abcdef123456" "Bearer" 3600
          "mcp_refresh_token_canyon_ghijkl789012" "read write"), none) := by
    simp [MainSimple.oauth_token, hf1, hf2, hf3, hf4]
  rw [hok]
  refine ⟨rfl, ?_⟩
  simp [MainSimple.oauth_token, hf2]

/-- C7 witness: the concrete matching argument set. -/
theorem authorize_token_round_trip_check :
    (MainSimple.oauth_token fGood (MainSimple.oauth_authorize aGood none).2).1
      = (200, .payload "mcp_access_token_canyon_abcdef123456" "Bearer" 3600
          "mcp_refresh_token_canyon_ghijkl789012" "read write") ∧
    (MainSimple.oauth_token fGood
        (MainSimple.oauth_token fGood (MainSimple.oauth_authorize aGood none).2).2).1
      = (400, .invalidGrant) :=
  authorize_token_round_trip aGood none fGood rfl rfl rfl rfl rfl rfl

/-- C8: a GET /oauth/authorize whose client_id is not the static constant or
whose response_type is not "code" is answered with HTTP 400 and the error
body, not a redirect, and the stored authorization-code slot is untouched. -/
theorem authorize_rejects_bad_client (a : MainSimple.AuthArgs) (st : Option String)
    (h : a.client_id ≠ some MainSimple.CLIENT_ID ∨ a.response_type ≠ some "code") :
    MainSimple.oauth_authorize a st
      = ((400, .errorBody "Invalid client_id or response_type"), st) := by
  unfold MainSimple.oauth_authorize
  rw [if_pos h]

/-- C8 witness: a wrong client id with a correct response_type. -/
theorem authorize_rejects_bad_client_check :
    MainSimple.oauth_authorize ⟨some "evil", some "https://cb", some "code", "", ""⟩ none
      = ((400, .errorBody "Invalid client_id or response_type"), none) :=
  authorize_rejects_bad_client ⟨some "evil", some "https://cb", some "code", "", ""⟩ none
    (by decide)

/-- C9: on every branch — file success, file failure, thread round trip and
outer error alike — `fetch_document` returns a dict with exactly the keys
id, title, text, url and metadata, whose id field is the input identifier
verbatim. -/
theorem fetch_document_shape (docId : String) (env : Env) :
    (MainFlask.fetch_document docId env).1.dictKeys
      = ["id", "title", "text", "url", "metadata"] ∧
    (MainFlask.fetch_document docId env).1.id = docId := by
  refine ⟨rfl, ?_⟩
  obtain ⟨tc, mc, rc, ml, td, fr, fc⟩ := env
  by_cases h : pyStartsWith docId "file-" = true
  · cases fr <;> cases fc <;>
      simp_all [MainFlask.fetch_document, MainFlask.fileNotFoundDoc, MainFlask.fileDoc]
  · have h' : pyStartsWith docId "file-" = false := by
      cases hx : pyStartsWith docId "file-" <;> simp_all
    cases tc <;> cases mc <;> cases rc <;> cases ml <;>
      simp_all [MainFlask.fetch_document, MainFlask.fetchErrorDoc, fetchResultOf_id]

/-- C10: every successful authorize call stores and issues the one hard-coded
code "mcp_auth_code_canyon_123456" and redirects to the caller-supplied
redirect_uri verbatim — whatever it is, with no validation — with the code
and, when non-empty, the state parameter appended. -/
theorem authorize_issues_constant_code (a : MainSimple.AuthArgs) (st : Option String)
    (u : String)
    (h1 : a.client_id = some MainSimple.CLIENT_ID) (h2 : a.response_type = some "code")
    (h3 : a.redirect_uri = some u) :
    MainSimple.oauth_authorize a st
      = ((302, .redirectTo (u ++ "?" ++ ("code=" ++ "mcp_auth_code_canyon_123456" ++
          (if a.state ≠ "" then "&state=" ++ a.state else "")))),
         some "mcp_auth_code_canyon_123456") := by
  simp [MainSimple.oauth_authorize, h1, h2, h3, optStr]

/-- C10 witness: a concrete redirect_uri and non-empty state. -/
theorem authorize_issues_constant_code_check :
    MainSimple.oauth_authorize aGood none
      = ((302, .redirectTo ("https://chat.example/cb" ++ "?" ++
          ("code=" ++ "mcp_auth_code_canyon_123456" ++
            (if aGood.state ≠ "" then "&state=" ++ aGood.state else "")))),
         some "mcp_auth_code_canyon_123456") :=
  authorize_issues_constant_code aGood none "https://chat.example/cb" rfl rfl rfl

end McpCanyon
